import Mathlib

/- Verification of the dtype-kind classification layer of
   sktime/datatypes/_dtypekind.py, and of the input-validation slice of the
   regression base class exercised by sktime/regression/tests/test_base.py. -/

/-- Model of the `DtypeKind` IntEnum of sktime/datatypes/_dtypekind.py. -/
inductive DtypeKind where
  | INT
  | UINT
  | FLOAT
  | BOOL
  | STRING
  | DATETIME
  | CATEGORICAL
  deriving DecidableEq, Repr

/-- The integer code of each `DtypeKind` member, as fixed in the source
(`INT = 0`, `UINT = 1`, `FLOAT = 2`, `BOOL = 20`, `STRING = 21`,
`DATETIME = 22`, `CATEGORICAL = 23`).  Python `IntEnum` members compare
and hash by this code. -/
def DtypeKind.code : DtypeKind → Nat
  | .INT => 0
  | .UINT => 1
  | .FLOAT => 2
  | .BOOL => 20
  | .STRING => 21
  | .DATETIME => 22
  | .CATEGORICAL => 23

/-- Model of a pandas storage dtype at the granularity the classifier
observes: the boolean outcome of each predicate that
`_pandas_dtype_to_kind` applies to it (`is_float_dtype`,
`is_signed_integer_dtype`, `is_unsigned_integer_dtype`, equality with
`"object"`, equality with `"category"`, `is_bool_dtype`,
`is_datetime64_any_dtype`, `is_string_dtype`).  The classifier inspects a
dtype only through these predicates, so two dtypes with the same outcomes
are indistinguishable to it. -/
structure PandasDtype where
  is_float : Bool
  is_signed_integer : Bool
  is_unsigned_integer : Bool
  is_object : Bool
  is_category : Bool
  is_bool : Bool
  is_datetime64_any : Bool
  is_string : Bool
  deriving DecidableEq, Repr

/-- numpy `int64`, as the pandas predicates see it. -/
def int64Dtype : PandasDtype :=
  ⟨false, true, false, false, false, false, false, false⟩

/-- numpy `float64`, as the pandas predicates see it. -/
def float64Dtype : PandasDtype :=
  ⟨true, false, false, false, false, false, false, false⟩

/-- numpy `object` dtype (how pandas stores text columns): equal to
`"object"`; pandas `is_string_dtype` also accepts it. -/
def objectDtype : PandasDtype :=
  ⟨false, false, false, true, false, false, false, true⟩

/-- numpy `complex128`: satisfies none of the predicates the classifier
applies (it is not floating per `is_float_dtype`, not integer, not object
or category, not boolean, not datetime-like, and its kind `c` is not a
string kind). -/
def complex128Dtype : PandasDtype :=
  ⟨false, false, false, false, false, false, false, false⟩

/-- The `if`/`elif` chain in the loop body of `_pandas_dtype_to_kind`,
for a single dtype: the first matching predicate determines the kind;
`none` when no predicate matches (the source chain has no `else` branch). -/
def classify_one (d : PandasDtype) : Option DtypeKind :=
  if d.is_float then some .FLOAT
  else if d.is_signed_integer then some .INT
  else if d.is_unsigned_integer then some .UINT
  else if d.is_object || d.is_category then some .CATEGORICAL
  else if d.is_bool then some .BOOL
  else if d.is_datetime64_any then some .DATETIME
  else if d.is_string then some .STRING
  else none

/-- An entry of the column-dtypes list handled by `_pandas_dtype_to_kind`:
before classification a raw pandas dtype (`Sum.inl`), after classification
a `DtypeKind` member (`Sum.inr`).  The source overwrites entries of one
list in place, so both forms live in the same list. -/
abbrev DtypeEntry := PandasDtype ⊕ DtypeKind

/-- One iteration of the loop body of `_pandas_dtype_to_kind` on the entry
at position `i`: a raw dtype is replaced by its kind when some predicate
matches and kept unchanged otherwise.  A `DtypeKind` entry (a plain int to
pandas) satisfies none of the dtype predicates and is likewise kept. -/
def classifyEntry : DtypeEntry → DtypeEntry
  | Sum.inl d =>
    match classify_one d with
    | some k => Sum.inr k
    | none => Sum.inl d
  | Sum.inr k => Sum.inr k

/-- A list of raw dtypes, as the callers of `_pandas_dtype_to_kind` build it
(`obj.dtypes.to_list()` and the like). -/
def ofDtypes (l : List PandasDtype) : List DtypeEntry := l.map Sum.inl

/-- `_pandas_dtype_to_kind`: the net effect of the in-place loop on the
contents of the list (each position is read before it is written, and no
write touches a later position, so the contents are transformed
elementwise). -/
def _pandas_dtype_to_kind (l : List DtypeEntry) : List DtypeEntry :=
  l.map classifyEntry

example : _pandas_dtype_to_kind (ofDtypes [objectDtype, float64Dtype]) =
    [Sum.inr .CATEGORICAL, Sum.inr .FLOAT] := by decide

example : _pandas_dtype_to_kind (ofDtypes [complex128Dtype]) =
    [Sum.inl complex128Dtype] := by decide

/-- A heap of Python list objects, to express the in-place mutation of
`_pandas_dtype_to_kind`: a cell is a list object's contents, a reference
is a cell index. -/
abbrev PyHeap := List (List DtypeEntry)

/-- `_pandas_dtype_to_kind` as the caller observes it: it receives a
reference to a list object, rewrites that object's entries in place, and
returns the reference it received (`return col_dtypes` returns the very
same object).  `none` models a dangling reference, which never occurs. -/
def pandas_dtype_to_kind_ref (h : PyHeap) (r : Nat) : Option (PyHeap × Nat) :=
  match h.get? r with
  | some l => some (h.set r (_pandas_dtype_to_kind l), r)
  | none => none

/-- A pandas `DataFrame` at the granularity the classifier observes: its
ordered list of (non-index) column storage dtypes, `obj.dtypes.to_list()`. -/
structure DataFrameM where
  dtypes : List PandasDtype
  deriving DecidableEq, Repr

/-- The objects `_get_series_dtypekind` receives: a numpy array (observed
through its shape), a pandas `Series` (observed through its dtype), or a
pandas `DataFrame` (observed through its column dtypes). -/
inductive SeriesObjM where
  | ndarray (shape : List Nat)
  | series (dtype : PandasDtype)
  | dataframe (frame : DataFrameM)
  deriving DecidableEq, Repr

/-- The `mtype` argument of `_get_series_dtypekind`: the source compares it
for equality with the classes `np.ndarray`, `pd.Series` and
`pd.DataFrame`; `other` stands for any value equal to none of the three
(every such value takes the same code path, so they collapse to one
constructor). -/
inductive SeriesMtype where
  | np_ndarray
  | pd_Series
  | pd_DataFrame
  | other
  deriving DecidableEq, Repr

/-- Errors the classifier slice can raise.  `unboundLocalError` models the
source reaching `_pandas_dtype_to_kind(col_dtypes)` with the local
`col_dtypes` never assigned, which happens exactly when the `mtype` tag
matches no branch; `indexError` models `obj[0]` on an empty list or
`obj[col][0]` on an empty column; `objMismatch` models the attribute and
indexing errors Python raises when the object does not have the structure
the tag's branch expects. -/
inductive PyErr where
  | unboundLocalError
  | indexError
  | objMismatch
  deriving DecidableEq, Repr

/-- `_get_series_dtypekind`: dispatch on the `mtype` tag.  A 2-D numpy
array yields one `FLOAT` per trailing-axis column, any other numpy array a
single `FLOAT`; a `Series` contributes its one dtype, a `DataFrame` its
column dtypes, both then classified by `_pandas_dtype_to_kind`; any other
tag leaves `col_dtypes` unassigned and the call raises. -/
def _get_series_dtypekind (obj : SeriesObjM) (mtype : SeriesMtype) :
    Except PyErr (List DtypeEntry) :=
  match mtype with
  | .np_ndarray =>
    match obj with
    | .ndarray shape =>
      if shape.length = 2 then
        .ok (List.replicate (shape.getD 1 0) (Sum.inr .FLOAT))
      else
        .ok [Sum.inr DtypeKind.FLOAT]
    | _ => .error .objMismatch
  | .pd_Series =>
    match obj with
    | .series d => .ok (_pandas_dtype_to_kind (ofDtypes [d]))
    | _ => .error .objMismatch
  | .pd_DataFrame =>
    match obj with
    | .dataframe f => .ok (_pandas_dtype_to_kind (ofDtypes f.dtypes))
    | _ => .error .objMismatch
  | .other => .error .unboundLocalError

/-- The objects `_get_panel_dtypekind` receives, at the granularity the
classifier observes: a 3-D numpy array (its shape), a flattened 2-D numpy
array, a list of data frames, one multi-indexed frame, or a nested frame
holding, for each column, the storage dtype of the series embedded in each
of its rows (`obj[col][row].dtype`). -/
inductive PanelObjM where
  | numpy3D (shape : List Nat)
  | numpyflat (shape : List Nat)
  | dfList (frames : List DataFrameM)
  | multiindex (frame : DataFrameM)
  | nestedUniv (cols : List (List PandasDtype))
  deriving DecidableEq, Repr

/-- `_get_panel_dtypekind`: dispatch on the string `mtype` tag.
`"numpy3D"` yields one `FLOAT` per variable (`obj.shape[1]`);
`"numpyflat"` yields a single `FLOAT` without touching `obj`; `"df-list"`
classifies the first frame of the list as a `DataFrame`
(`_get_series_dtypekind(obj[0], pd.DataFrame)`); `"pd-multiindex"`
classifies the frame's column dtypes; `"nested_univ"` classifies, for each
column, the dtype of the series in its first row (`obj[col][0].dtype`);
any other tag leaves `col_dtypes` unassigned and the call raises. -/
def _get_panel_dtypekind (obj : PanelObjM) (mtype : String) :
    Except PyErr (List DtypeEntry) :=
  if mtype = "numpy3D" then
    match obj with
    | .numpy3D shape => .ok (List.replicate (shape.getD 1 0) (Sum.inr .FLOAT))
    | _ => .error .objMismatch
  else if mtype = "numpyflat" then
    .ok [Sum.inr DtypeKind.FLOAT]
  else if mtype = "df-list" then
    match obj with
    | .dfList frames =>
      match frames.head? with
      | some f => _get_series_dtypekind (.dataframe f) .pd_DataFrame
      | none => .error .indexError
    | _ => .error .objMismatch
  else if mtype = "pd-multiindex" then
    match obj with
    | .multiindex f => .ok (_pandas_dtype_to_kind (ofDtypes f.dtypes))
    | _ => .error .objMismatch
  else if mtype = "nested_univ" then
    match obj with
    | .nestedUniv cols =>
      match cols.mapM List.head? with
      | some ds => .ok (_pandas_dtype_to_kind (ofDtypes ds))
      | none => .error .indexError
    | _ => .error .objMismatch
  else
    .error .unboundLocalError

/-- The dict `feature_kind_map` of `_get_feature_kind`, as the (total)
function it defines on the members of `DtypeKind`: the four
categorical-like kinds collapse to `CATEGORICAL`, the three numeric kinds
to `FLOAT`.  The values are themselves `DtypeKind` members; the source has
no separate feature-kind type. -/
def feature_kind_map : DtypeKind → DtypeKind
  | .CATEGORICAL => .CATEGORICAL
  | .STRING => .CATEGORICAL
  | .BOOL => .CATEGORICAL
  | .DATETIME => .CATEGORICAL
  | .FLOAT => .FLOAT
  | .INT => .FLOAT
  | .UINT => .FLOAT

/-- `_get_feature_kind` on a list of `DtypeKind` members (the shape its
callers feed it after successful classification): the dict lookup
succeeds on every member, so the function is the elementwise map. -/
def _get_feature_kind (l : List DtypeKind) : List DtypeKind :=
  l.map feature_kind_map

/-- The dict lookup `feature_kind_map[kind]` on one entry of the classified
list: a raw dtype left unclassified in the list is not a key of the dict,
so the lookup raises `KeyError` (`none`). -/
def feature_kind_lookup : DtypeEntry → Option DtypeKind
  | Sum.inr k => some (feature_kind_map k)
  | Sum.inl _ => none

/-- `_get_feature_kind` on the mixed list `_pandas_dtype_to_kind` can
produce: the loop appends `feature_kind_map[kind]` per entry and raises
`KeyError` (`none`) at the first entry that is not a `DtypeKind` member. -/
def get_feature_kind_entries : List DtypeEntry → Option (List DtypeKind)
  | [] => some []
  | e :: rest =>
    match feature_kind_lookup e with
    | some k => (get_feature_kind_entries rest).map (fun ks => k :: ks)
    | none => none

/-- The pipeline the feature-kind tests exercise on panels:
`_get_panel_dtypekind` followed by `_get_feature_kind`; `none` when either
step raises. -/
def featureKindPipeline (obj : PanelObjM) (mtype : String) :
    Option (List DtypeKind) :=
  match _get_panel_dtypekind obj mtype with
  | .ok entries => get_feature_kind_entries entries
  | .error _ => none

example : featureKindPipeline (.multiindex ⟨[int64Dtype, objectDtype]⟩)
    "pd-multiindex" = some [.FLOAT, .CATEGORICAL] := by decide

example : featureKindPipeline
    (.dfList [⟨[int64Dtype, objectDtype]⟩, ⟨[int64Dtype, objectDtype]⟩])
    "df-list" = some [.FLOAT, .CATEGORICAL] := by decide

example : featureKindPipeline
    (.nestedUniv [[int64Dtype, int64Dtype], [objectDtype, objectDtype]])
    "nested_univ" = some [.FLOAT, .CATEGORICAL] := by decide

/-- Modelled from the spec: the X-metadata record of §3 — the body of
`BaseRegressor._check_capabilities` (sktime/regression/base.py) is not
among the provided source files, only its tests are.  The three flags the
capability check consumes. -/
structure XMetadata where
  has_nans : Bool
  is_univariate : Bool
  is_equal_length : Bool
  deriving DecidableEq, Repr

/-- Modelled from the spec: the capability tags of §3 read by the check
("supports missing values", "supports multivariate", "supports unequal
length"). -/
structure CapabilityTags where
  missing_values : Bool
  multivariate : Bool
  unequal_length : Bool
  deriving DecidableEq, Repr

/-- An estimator declaring no capabilities (the tag defaults). -/
def noCapabilities : CapabilityTags := ⟨false, false, false⟩

/-- An estimator declaring all three capabilities. -/
def allCapabilities : CapabilityTags := ⟨true, true, true⟩

/-- Modelled from the spec: the list of violated capabilities the check
reports, one per §4.3 condition, named by the message fragment the tests
match on (`missing values`, `multivariate series`, `unequal length
series`); the tests expect one report covering every violated capability. -/
def capabilityViolations (tags : CapabilityTags) (m : XMetadata) :
    List String :=
  (if m.has_nans && !tags.missing_values then ["missing values"] else []) ++
  (if !m.is_univariate && !tags.multivariate then ["multivariate series"]
   else []) ++
  (if !m.is_equal_length && !tags.unequal_length then
    ["unequal length series"] else [])

/-- The observable outcome of one `_check_capabilities` call. -/
inductive CapOutcome where
  | ok
  | raisesValueError (problems : List String)
  | warnsUserWarning (problems : List String)
  deriving DecidableEq, Repr

/-- Modelled from the spec: `BaseRegressor._check_capabilities`
(sktime/regression/base.py, not among the provided source files).  Per
§4.3 and §7 of the spec: no violated capability — silent success; some
violation — a leaf estimator raises a `ValueError` naming the violations,
a composite estimator emits a non-fatal `UserWarning` with the same
content and proceeds. -/
def _check_capabilities (isComposite : Bool) (tags : CapabilityTags)
    (m : XMetadata) : CapOutcome :=
  let v := capabilityViolations tags m
  if v.isEmpty then .ok
  else if isComposite then .warnsUserWarning v
  else .raisesValueError v

/-- The `y` argument of `_check_input`: absent, an sktime-compatible label
sequence (array/series) with its number of instances, or a plain Python
list, which is not a compatible format. -/
inductive YInput where
  | noLabels
  | labels (n : Nat)
  | pythonList (n : Nat)
  deriving DecidableEq, Repr

/-- The errors `_check_input` can raise, named by the message the tests
match on. -/
inductive CheckInputError where
  | mismatchNumberOfCases (nx ny : Nat)
  | minimumCasesRequired (nx minimum : Nat)
  | notCompatibleFormat
  deriving DecidableEq, Repr

/-- Modelled from the spec: `BaseRegressor._check_input`
(sktime/regression/base.py, not among the provided source files).  Per
§4.3 and §7 of the spec: the number of instances of X below the configured
`enforce_min_instances` raises the minimum-instances `ValueError`
(independent of y); y supplied as a plain list raises a `TypeError`;
a number of instances of y different from that of X raises the distinct
mismatch `ValueError` (independent of the configured minimum). -/
def _check_input (nInstancesX : Nat) (y : YInput)
    (enforce_min_instances : Nat) : Except CheckInputError Unit :=
  if nInstancesX < enforce_min_instances then
    .error (.minimumCasesRequired nInstancesX enforce_min_instances)
  else
    match y with
    | .noLabels => .ok ()
    | .pythonList _ => .error .notCompatibleFormat
    | .labels ny =>
      if nInstancesX ≠ ny then .error (.mismatchNumberOfCases nInstancesX ny)
      else .ok ()

example : _check_input 3 (.labels 5) 1 =
    .error (.mismatchNumberOfCases 3 5) := rfl

example : _check_input 2 (.labels 2) 6 =
    .error (.minimumCasesRequired 2 6) := rfl

/-- The declared precedence of the classification predicates, in the order
the source's `elif` chain tests them, paired with the kind each assigns. -/
def classification_precedence : List ((PandasDtype → Bool) × DtypeKind) :=
  [(fun d => d.is_float, .FLOAT),
   (fun d => d.is_signed_integer, .INT),
   (fun d => d.is_unsigned_integer, .UINT),
   (fun d => d.is_object || d.is_category, .CATEGORICAL),
   (fun d => d.is_bool, .BOOL),
   (fun d => d.is_datetime64_any, .DATETIME),
   (fun d => d.is_string, .STRING)]

/-- Specification-side restatement of first-match-wins classification: the
kind paired with the earliest predicate of `classification_precedence`
that the dtype satisfies, `none` when it satisfies none. -/
def firstMatchKind (d : PandasDtype) : Option DtypeKind :=
  (classification_precedence.find? (fun pk => pk.1 d)).map (fun pk => pk.2)

/-- A concrete heap with one list object, holding a classifiable and an
unclassifiable dtype. -/
def exampleHeap : PyHeap := [[Sum.inl int64Dtype, Sum.inl complex128Dtype]]

theorem classifyEntry_of_some {d : PandasDtype} {k : DtypeKind}
    (h : classify_one d = some k) : classifyEntry (Sum.inl d) = Sum.inr k := by
  simp [classifyEntry, h]

theorem classifyEntry_of_none {d : PandasDtype}
    (h : classify_one d = none) : classifyEntry (Sum.inl d) = Sum.inl d := by
  simp [classifyEntry, h]

theorem get_feature_kind_entries_of_unclassified {l : List DtypeEntry}
    {d : PandasDtype} (hmem : Sum.inl d ∈ l) :
    get_feature_kind_entries l = none := by
  induction l with
  | nil => cases hmem
  | cons x xs ih =>
    rcases List.mem_cons.mp hmem with hx | hx
    · subst hx
      simp [get_feature_kind_entries, feature_kind_lookup]
    · have htail := ih hx
      cases hfx : feature_kind_lookup x <;>
        simp [get_feature_kind_entries, hfx, htail]

theorem feature_pipeline_two {a b : PandasDtype} {ka kb : DtypeKind}
    (ha : classify_one a = some ka) (hb : classify_one b = some kb) :
    get_feature_kind_entries (_pandas_dtype_to_kind (ofDtypes [a, b])) =
      some [feature_kind_map ka, feature_kind_map kb] := by
  simp [get_feature_kind_entries, _pandas_dtype_to_kind, ofDtypes,
    classifyEntry_of_some ha, classifyEntry_of_some hb, feature_kind_lookup]

/-- C7: the `DtypeKind` enumeration has exactly the seven members `INT`,
`UINT`, `FLOAT`, `BOOL`, `STRING`, `DATETIME`, `CATEGORICAL`, with the
fixed integer codes 0, 1, 2, 20, 21, 22, 23, and no other members. -/
theorem C7_dtypekind_enumeration :
    DtypeKind.code .INT = 0 ∧ DtypeKind.code .UINT = 1 ∧
    DtypeKind.code .FLOAT = 2 ∧ DtypeKind.code .BOOL = 20 ∧
    DtypeKind.code .STRING = 21 ∧ DtypeKind.code .DATETIME = 22 ∧
    DtypeKind.code .CATEGORICAL = 23 ∧
    ∀ k : DtypeKind, k = .INT ∨ k = .UINT ∨ k = .FLOAT ∨ k = .BOOL ∨
      k = .STRING ∨ k = .DATETIME ∨ k = .CATEGORICAL := by
  refine ⟨rfl, rfl, rfl, rfl, rfl, rfl, rfl, ?_⟩
  intro k
  cases k <;> simp

/-- C4: `_get_feature_kind` is a pure total function on sequences of
`DtypeKind` members: the output has the input's length, and its i-th
element is `CATEGORICAL` when the i-th input is one of `CATEGORICAL`,
`STRING`, `BOOL`, `DATETIME`, and `FLOAT` when it is one of `FLOAT`,
`INT`, `UINT`; no member is unmapped (determinism across repeated calls is
definitional for the pure embedding). -/
theorem C4_get_feature_kind_total (l : List DtypeKind) :
    (_get_feature_kind l).length = l.length ∧
    ∀ i k, l.get? i = some k →
      (_get_feature_kind l).get? i =
        some (if k = .CATEGORICAL ∨ k = .STRING ∨ k = .BOOL ∨ k = .DATETIME
              then DtypeKind.CATEGORICAL else DtypeKind.FLOAT) := by
  constructor
  · simp [_get_feature_kind]
  · intro i k hk
    simp only [_get_feature_kind, List.get?_map, hk, Option.map_some']
    cases k <;> rfl

/-- Closed witness for C4 at a concrete input. -/
theorem C4_witness :
    (_get_feature_kind [DtypeKind.BOOL, DtypeKind.UINT]).get? 0 =
      some DtypeKind.CATEGORICAL := by
  have h := (C4_get_feature_kind_total [DtypeKind.BOOL, DtypeKind.UINT]).2
    0 DtypeKind.BOOL rfl
  simpa using h

/-- C9: every element of the sequence returned by `_get_feature_kind` is
itself a `DtypeKind` member — `CATEGORICAL` (code 23) or `FLOAT` (code 2);
the source has no separate feature-kind type, so feature-kind values carry
the corresponding `DtypeKind` codes. -/
theorem C9_feature_kind_values (l : List DtypeKind) :
    (∀ x ∈ _get_feature_kind l,
      x = DtypeKind.CATEGORICAL ∨ x = DtypeKind.FLOAT) ∧
    DtypeKind.code .CATEGORICAL = 23 ∧ DtypeKind.code .FLOAT = 2 := by
  refine ⟨?_, rfl, rfl⟩
  intro x hx
  simp only [_get_feature_kind, List.mem_map] at hx
  obtain ⟨k, -, rfl⟩ := hx
  cases k <;> simp [feature_kind_map]

/-- Closed witness for C9 at a concrete input. -/
theorem C9_witness :
    DtypeKind.FLOAT = DtypeKind.CATEGORICAL ∨
    DtypeKind.FLOAT = DtypeKind.FLOAT :=
  (C9_feature_kind_values [DtypeKind.INT]).1 DtypeKind.FLOAT (by decide)

/-- C5: `_pandas_dtype_to_kind` classifies every dtype of the sequence by
the fixed first-match-wins precedence floating-point, signed integer,
unsigned integer, object/categorical, boolean, datetime-like, textual:
the single-dtype chain agrees everywhere with the earliest matching entry
of `classification_precedence`, and every position of the output is the
entry the earliest matching predicate dictates. -/
theorem C5_first_match_precedence :
    (∀ d : PandasDtype, classify_one d = firstMatchKind d) ∧
    ∀ (dtypes : List PandasDtype) (i : Nat) (d : PandasDtype),
      dtypes.get? i = some d →
      (_pandas_dtype_to_kind (ofDtypes dtypes)).get? i =
        some (match firstMatchKind d with
              | some k => Sum.inr k
              | none => Sum.inl d) := by
  have h1 : ∀ d : PandasDtype, classify_one d = firstMatchKind d := by
    intro d
    obtain ⟨a, b, c, e, f, g, i, j⟩ := d
    cases a <;> cases b <;> cases c <;> cases e <;> cases f <;> cases g <;>
      cases i <;> cases j <;> rfl
  refine ⟨h1, ?_⟩
  intro dtypes i d hd
  rw [← h1 d]
  simp only [_pandas_dtype_to_kind, ofDtypes, List.map_map, List.get?_map,
    hd, Option.map_some', Function.comp]
  cases hc : classify_one d <;> simp [classifyEntry, hc]

/-- Closed witness for C5 at a concrete input. -/
theorem C5_witness :
    (_pandas_dtype_to_kind (ofDtypes [float64Dtype])).get? 0 =
      some (Sum.inr DtypeKind.FLOAT) := by
  have h := C5_first_match_precedence.2 [float64Dtype] 0 float64Dtype rfl
  simpa using h

/-- C2: over all eight combinations of the three X-metadata flags, a leaf
estimator declaring no capabilities raises a `ValueError` naming each
unsupported property exactly when some flag indicates unsupported data and
succeeds silently iff all indicate supported data; a composite estimator
emits a non-fatal `UserWarning` with the same content instead of raising;
an estimator declaring all three capabilities never raises or warns. -/
theorem C2_check_capabilities (m : XMetadata) :
    ("missing values" ∈ capabilityViolations noCapabilities m ↔
      m.has_nans = true) ∧
    ("multivariate series" ∈ capabilityViolations noCapabilities m ↔
      m.is_univariate = false) ∧
    ("unequal length series" ∈ capabilityViolations noCapabilities m ↔
      m.is_equal_length = false) ∧
    (_check_capabilities false noCapabilities m = .ok ↔
      (m.has_nans = false ∧ m.is_univariate = true ∧
        m.is_equal_length = true)) ∧
    (_check_capabilities true noCapabilities m = .ok ↔
      (m.has_nans = false ∧ m.is_univariate = true ∧
        m.is_equal_length = true)) ∧
    ((m.has_nans = true ∨ m.is_univariate = false ∨
        m.is_equal_length = false) →
      (_check_capabilities false noCapabilities m =
        .raisesValueError (capabilityViolations noCapabilities m) ∧
       _check_capabilities true noCapabilities m =
        .warnsUserWarning (capabilityViolations noCapabilities m))) ∧
    (_check_capabilities false allCapabilities m = .ok ∧
     _check_capabilities true allCapabilities m = .ok) := by
  obtain ⟨a, b, c⟩ := m
  cases a <;> cases b <;> cases c <;> decide

/-- Closed witness for C2 at a concrete flag combination. -/
theorem C2_witness :
    _check_capabilities false noCapabilities ⟨true, true, true⟩ =
      CapOutcome.raisesValueError ["missing values"] ∧
    _check_capabilities true noCapabilities ⟨true, true, true⟩ =
      CapOutcome.warnsUserWarning ["missing values"] :=
  (C2_check_capabilities ⟨true, true, true⟩).2.2.2.2.2.1 (Or.inl rfl)

/-- C6: `_check_input` raises the mismatch `ValueError` when the numbers of
instances of X and y differ, and the distinct minimum-instances
`ValueError` when X has fewer instances than the configured
`enforce_min_instances`; the mismatch check does not depend on the
configured minimum (any satisfied minimum) and the minimum check does not
depend on y (any y), and the two errors are never merged. -/
theorem C6_check_input_errors :
    (∀ (nx ny minI : Nat), ¬nx < minI → nx ≠ ny →
      _check_input nx (.labels ny) minI =
        .error (.mismatchNumberOfCases nx ny)) ∧
    (∀ (nx : Nat) (y : YInput) (minI : Nat), nx < minI →
      _check_input nx y minI = .error (.minimumCasesRequired nx minI)) ∧
    (∀ (nx ny nx2 m2 : Nat),
      CheckInputError.mismatchNumberOfCases nx ny ≠
        CheckInputError.minimumCasesRequired nx2 m2) := by
  refine ⟨?_, ?_, ?_⟩
  · intro nx ny minI h1 h2
    simp [_check_input, h1, h2]
  · intro nx y minI h
    simp [_check_input, h]
  · intro nx ny nx2 m2
    simp

/-- Closed witness for C6 at the test's concrete dimensions. -/
theorem C6_witness :
    _check_input 3 (.labels 5) 1 =
      .error (.mismatchNumberOfCases 3 5) ∧
    _check_input 2 (.labels 2) 6 =
      .error (.minimumCasesRequired 2 6) :=
  ⟨C6_check_input_errors.1 3 5 1 (by decide) (by decide),
   C6_check_input_errors.2.1 2 (.labels 2) 6 (by decide)⟩

/-- C8: calling a classifier with a representation tag outside its
supported set raises (the local `col_dtypes` is never assigned, so the
call fails before returning) and never falls back to a default
classification: every series-mtype other than the three supported classes
and every panel-mtype string other than the five supported tags yields the
error, for every object. -/
theorem C8_unknown_mtype_raises :
    (∀ obj : SeriesObjM,
      _get_series_dtypekind obj .other = .error .unboundLocalError) ∧
    ∀ (obj : PanelObjM) (mtype : String),
      mtype ∉ ["numpy3D", "numpyflat", "df-list", "pd-multiindex",
        "nested_univ"] →
      _get_panel_dtypekind obj mtype = .error .unboundLocalError := by
  constructor
  · intro obj
    rfl
  · intro obj mtype h
    simp only [List.mem_cons, List.mem_singleton, not_or] at h
    obtain ⟨h1, h2, h3, h4, h5⟩ := h
    simp [_get_panel_dtypekind, h1, h2, h3, h4, h5]

/-- Closed witness for C8 at a concrete unsupported tag. -/
theorem C8_witness :
    _get_series_dtypekind (.series int64Dtype) .other =
      .error .unboundLocalError ∧
    _get_panel_dtypekind (.multiindex ⟨[int64Dtype]⟩) "np.ndarray" =
      .error .unboundLocalError :=
  ⟨C8_unknown_mtype_raises.1 (.series int64Dtype),
   C8_unknown_mtype_raises.2 (.multiindex ⟨[int64Dtype]⟩) "np.ndarray"
     (by decide)⟩

/-- C10: `_pandas_dtype_to_kind` rewrites the list object it is given in
place — it returns the very same reference it received, the caller's list
afterwards holds the classified entries (each matched dtype overwritten
with its `DtypeKind`, each unmatched dtype keeping its original value),
and no other list object is touched. -/
theorem C10_in_place_same_object (h : PyHeap) (r : Nat)
    (l : List DtypeEntry) (hr : h.get? r = some l) :
    pandas_dtype_to_kind_ref h r =
      some (h.set r (_pandas_dtype_to_kind l), r) ∧
    (h.set r (_pandas_dtype_to_kind l)).get? r =
      some (_pandas_dtype_to_kind l) ∧
    (∀ j, j ≠ r → (h.set r (_pandas_dtype_to_kind l)).get? j = h.get? j) ∧
    (∀ i d k, l.get? i = some (Sum.inl d) → classify_one d = some k →
      (_pandas_dtype_to_kind l).get? i = some (Sum.inr k)) ∧
    (∀ i d, l.get? i = some (Sum.inl d) → classify_one d = none →
      (_pandas_dtype_to_kind l).get? i = some (Sum.inl d)) := by
  have hlt : r < h.length := by
    rcases List.get?_eq_some.mp hr with ⟨hlen, -⟩
    exact hlen
  refine ⟨?_, ?_, ?_, ?_, ?_⟩
  · show (match h.get? r with
      | some l => some (h.set r (_pandas_dtype_to_kind l), r)
      | none => none) = some (h.set r (_pandas_dtype_to_kind l), r)
    rw [hr]
  · exact List.get?_set_eq_of_lt _ hlt
  · intro j hj
    exact List.get?_set_ne _ _ (fun hrj => hj hrj.symm)
  · intro i d k hi hk
    show (l.map classifyEntry).get? i = some (Sum.inr k)
    rw [List.get?_map, hi, Option.map_some', classifyEntry_of_some hk]
  · intro i d hi hd
    show (l.map classifyEntry).get? i = some (Sum.inl d)
    rw [List.get?_map, hi, Option.map_some', classifyEntry_of_none hd]

/-- Closed witness for C10 at a concrete heap. -/
theorem C10_witness :
    pandas_dtype_to_kind_ref exampleHeap 0 =
      some ([[Sum.inr DtypeKind.INT, Sum.inl complex128Dtype]], 0) ∧
    (_pandas_dtype_to_kind [Sum.inl int64Dtype, Sum.inl complex128Dtype]).get?
      1 = some (Sum.inl complex128Dtype) := by
  have h := C10_in_place_same_object exampleHeap 0
    [Sum.inl int64Dtype, Sum.inl complex128Dtype] rfl
  exact ⟨h.1, h.2.2.2.2 1 complex128Dtype rfl rfl⟩

/-- C1 counterexample: a dtype that matches none of the classification
predicates (numpy `complex128`) is not an error for `_pandas_dtype_to_kind`
— the call returns normally and the column is passed through unclassified,
its original dtype still in the returned list, contrary to the claim that
classification fails with a propagating internal error and never passes a
column through unclassified. -/
theorem C1_counterexample :
    _pandas_dtype_to_kind (ofDtypes [complex128Dtype]) =
      [Sum.inl complex128Dtype] ∧
    Sum.inl complex128Dtype ∈
      _pandas_dtype_to_kind (ofDtypes [complex128Dtype]) := by
  refine ⟨rfl, ?_⟩
  exact List.Mem.head _

/-- C1 (amended): a column whose storage dtype matches none of the
predicates is silently left unchanged — unclassified — in the list
returned by `_pandas_dtype_to_kind`, which itself raises nothing; an
internal error (`KeyError`) surfaces only when the unreduced result is
subsequently passed to `_get_feature_kind`, whose dict lookup fails on the
raw dtype. -/
theorem C1_unclassified_passthrough (dtypes : List PandasDtype)
    (d : PandasDtype) (hd : d ∈ dtypes) (hc : classify_one d = none) :
    Sum.inl d ∈ _pandas_dtype_to_kind (ofDtypes dtypes) ∧
    get_feature_kind_entries (_pandas_dtype_to_kind (ofDtypes dtypes)) =
      none := by
  have hmem : Sum.inl d ∈ _pandas_dtype_to_kind (ofDtypes dtypes) := by
    simp only [_pandas_dtype_to_kind, ofDtypes, List.map_map, List.mem_map,
      Function.comp]
    exact ⟨d, hd, classifyEntry_of_none hc⟩
  exact ⟨hmem, get_feature_kind_entries_of_unclassified hmem⟩

/-- Closed witness for the amended C1 at a concrete input. -/
theorem C1_witness :
    Sum.inl complex128Dtype ∈
      _pandas_dtype_to_kind (ofDtypes [float64Dtype, complex128Dtype]) ∧
    get_feature_kind_entries
      (_pandas_dtype_to_kind (ofDtypes [float64Dtype, complex128Dtype])) =
      none :=
  C1_unclassified_passthrough [float64Dtype, complex128Dtype]
    complex128Dtype (by decide) rfl

/-- C3: a two-column panel with one text column (storage dtype classifying
as object/categorical or textual) and one numeric column (storage dtype
classifying as floating, signed or unsigned integer), encoded as a list of
per-instance tables, as one multi-indexed table, and as a nested-cell
table, yields under `_get_panel_dtypekind` followed by the feature-kind
reduction the same feature-kind sequence for all three encodings, the text
column reducing to `CATEGORICAL` and the numeric column to `FLOAT`. -/
theorem C3_representation_invariance (dText dNum : PandasDtype)
    (restFrames : List DataFrameM) (restText restNum : List PandasDtype)
    (hText : classify_one dText = some .CATEGORICAL ∨
      classify_one dText = some .STRING)
    (hNum : classify_one dNum = some .FLOAT ∨
      classify_one dNum = some .INT ∨ classify_one dNum = some .UINT) :
    featureKindPipeline (.dfList (⟨[dText, dNum]⟩ :: restFrames))
      "df-list" = some [DtypeKind.CATEGORICAL, DtypeKind.FLOAT] ∧
    featureKindPipeline (.multiindex ⟨[dText, dNum]⟩)
      "pd-multiindex" = some [DtypeKind.CATEGORICAL, DtypeKind.FLOAT] ∧
    featureKindPipeline (.nestedUniv [dText :: restText, dNum :: restNum])
      "nested_univ" = some [DtypeKind.CATEGORICAL, DtypeKind.FLOAT] := by
  obtain ⟨kT, hkT, hfT⟩ :
      ∃ k, classify_one dText = some k ∧
        feature_kind_map k = DtypeKind.CATEGORICAL := by
    rcases hText with h | h <;> exact ⟨_, h, rfl⟩
  obtain ⟨kN, hkN, hfN⟩ :
      ∃ k, classify_one dNum = some k ∧
        feature_kind_map k = DtypeKind.FLOAT := by
    rcases hNum with h | h | h <;> exact ⟨_, h, rfl⟩
  have hcore :
      get_feature_kind_entries (_pandas_dtype_to_kind (ofDtypes
        [dText, dNum])) = some [DtypeKind.CATEGORICAL, DtypeKind.FLOAT] := by
    rw [feature_pipeline_two hkT hkN, hfT, hfN]
  exact ⟨hcore, hcore, hcore⟩

/-- Closed witness for C3 at the concrete dtypes of the source's test
(text stored as numpy `object`, numbers as `int64`). -/
theorem C3_witness :
    featureKindPipeline (.dfList [⟨[objectDtype, int64Dtype]⟩])
      "df-list" = some [DtypeKind.CATEGORICAL, DtypeKind.FLOAT] ∧
    featureKindPipeline (.multiindex ⟨[objectDtype, int64Dtype]⟩)
      "pd-multiindex" = some [DtypeKind.CATEGORICAL, DtypeKind.FLOAT] ∧
    featureKindPipeline (.nestedUniv [[objectDtype], [int64Dtype]])
      "nested_univ" = some [DtypeKind.CATEGORICAL, DtypeKind.FLOAT] :=
  C3_representation_invariance objectDtype int64Dtype [] [] []
    (Or.inl rfl) (Or.inr (Or.inl rfl))
